import Mathlib

/-!
Verification development for the rusty-openweathermap-library repository.

Modelling conventions, chosen once for the whole file:

* Rust `f64` fields are modelled as `ℚ`.  Every comparison the code performs
  on floats (`<`, `>` against literal bounds) agrees with the IEEE-754
  comparison on the corresponding finite values, and every concrete constant
  appearing in the claims (27.77, 43.6532, …) is an exact decimal, so the
  rational model is faithful on the domain the claims quantify over
  (NaN/infinity inputs are outside the model).
* Rust `i32`/`i64` fields are modelled as `ℤ`.  The code performs no
  arithmetic on them — only range comparisons — so overflow never matters.
* `Result<T, String>` becomes `Except String T`; `Result<T, Box<dyn Error>>`
  also becomes `Except String T` (the code only ever converts such errors to
  their display string).
* The two network resolvers (`LocationClient::get_location`,
  `WeatherClient::get_current_weather`) perform HTTP I/O; the host-bridge
  adapter is therefore embedded as a function parameterised by the outcome
  functions of the two resolvers (and by the outcome of `serde_json::from_str`
  on the request text), exactly preserving the adapter's own control flow.
* `serde_json` serialization of the library's `derive(Serialize)` types is
  embedded as an explicit JSON syntax tree (`Json`) plus a renderer: object
  fields in struct-declaration order, `Option::None` as `null`, `#[serde
  (rename = "type")]` honoured, strings escaped as serde_json escapes them.
* Rust's `format!("{:.1}", x)` (fixed one-decimal formatting, ties to even)
  and the `Display` of `f64` (shortest exact decimal) are embedded as
  explicit functions on `ℚ`.
-/

namespace Owm

-- region: data model, from src/src/weather/types.rs

/-- Geographic coordinates record (struct `Coord`): longitude and latitude in
decimal degrees. -/
structure Coord where
  lon : ℚ
  lat : ℚ
deriving DecidableEq

/-- Validating constructor `Coord::new`: rejects longitude outside
[-180, 180] and latitude outside [-90, 90], in that order, with the code's
error strings. -/
def Coord.new (lon lat : ℚ) : Except String Coord :=
  if lon < -180 ∨ 180 < lon then
    Except.error "Longitude must be between -180 and 180 degrees"
  else if lat < -90 ∨ 90 < lat then
    Except.error "Latitude must be between -90 and 90 degrees"
  else
    Except.ok { lon := lon, lat := lat }

/-- Weather condition record (struct `Weather`): id, main group, description,
icon id. -/
structure Weather where
  id : ℤ
  main : String
  description : String
  icon : String
deriving DecidableEq

/-- Main measurements record (struct `Main`): all fields optional, per the
authoritative schema. -/
structure Main where
  temp : Option ℚ
  feels_like : Option ℚ
  temp_min : Option ℚ
  temp_max : Option ℚ
  pressure : Option ℤ
  humidity : Option ℤ
  sea_level : Option ℤ
  grnd_level : Option ℤ
deriving DecidableEq

/-- Validating constructor `Main::new`: rejects a present humidity outside
[0, 100]. -/
def Main.new (temp feels_like temp_min temp_max : Option ℚ)
    (pressure humidity sea_level grnd_level : Option ℤ) : Except String Main :=
  match humidity with
  | some humidity_value =>
    if humidity_value < 0 ∨ 100 < humidity_value then
      Except.error "Humidity must be between 0 and 100 percent"
    else
      Except.ok ⟨temp, feels_like, temp_min, temp_max, pressure, some humidity_value,
        sea_level, grnd_level⟩
  | none =>
    Except.ok ⟨temp, feels_like, temp_min, temp_max, pressure, none, sea_level, grnd_level⟩

/-- Wind record (struct `Wind`): speed, meteorological direction in degrees,
optional gust. -/
structure Wind where
  speed : ℚ
  deg : ℤ
  gust : Option ℚ
deriving DecidableEq

/-- Validating constructor `Wind::new`: rejects negative speed, direction
outside [0, 360], and a present negative gust, in that order. -/
def Wind.new (speed : ℚ) (deg : ℤ) (gust : Option ℚ) : Except String Wind :=
  if speed < 0 then
    Except.error "Wind speed must be non-negative"
  else if deg < 0 ∨ 360 < deg then
    Except.error "Wind direction must be between 0 and 360 degrees (inclusive)"
  else
    match gust with
    | some gust_value =>
      if gust_value < 0 then
        Except.error "Wind gust must be non-negative"
      else
        Except.ok ⟨speed, deg, some gust_value⟩
    | none => Except.ok ⟨speed, deg, none⟩

/-- Cloudiness record (struct `Clouds`). -/
structure Clouds where
  all : ℤ
deriving DecidableEq

/-- Validating constructor `Clouds::new`: rejects coverage outside
[0, 100]. -/
def Clouds.new (all : ℤ) : Except String Clouds :=
  if all < 0 ∨ 100 < all then
    Except.error "Clouds::all must be between 0 and 100 percent"
  else
    Except.ok ⟨all⟩

/-- System metadata record (struct `Sys`).  The Rust field `sys_type` is
serialized under the name "type". -/
structure Sys where
  sys_type : ℤ
  id : ℤ
  country : String
  sunrise : ℤ
  sunset : ℤ
deriving DecidableEq

/-- Validating constructor `Sys::new`: the country code must consist only of
ASCII uppercase letters and have length exactly 2. -/
def Sys.new (sys_type id : ℤ) (country : String) (sunrise sunset : ℤ) :
    Except String Sys :=
  if ¬ (country.data.all fun c => 65 ≤ c.toNat ∧ c.toNat ≤ 90) ∨ country.length ≠ 2 then
    Except.error "Country code must be exactly 2 uppercase letters (ISO 3166-1 alpha-2)"
  else
    Except.ok ⟨sys_type, id, country, sunrise, sunset⟩

/-- Full weather response envelope (struct `WeatherResponse`). -/
structure WeatherResponse where
  coord : Coord
  weather : List Weather
  base : String
  main : Main
  visibility : ℤ
  wind : Wind
  clouds : Clouds
  dt : ℤ
  sys : Sys
  timezone : ℤ
  id : ℤ
  name : String
  cod : ℤ
deriving DecidableEq

/-- Validating constructor `WeatherResponse::new`: rejects negative
visibility. -/
def WeatherResponse.new (coord : Coord) (weather : List Weather) (base : String)
    (main : Main) (visibility : ℤ) (wind : Wind) (clouds : Clouds) (dt : ℤ)
    (sys : Sys) (timezone id : ℤ) (name : String) (cod : ℤ) :
    Except String WeatherResponse :=
  if visibility < 0 then
    Except.error "Visibility must never be less than 0."
  else
    Except.ok ⟨coord, weather, base, main, visibility, wind, clouds, dt, sys,
      timezone, id, name, cod⟩

-- endregion

-- region: location data model, from src/src/location/types.rs and client.rs

/-- Resolved location record (struct `Location` in src/src/location/types.rs):
postal code, display name, latitude, longitude, country code.  Field order is
the struct-declaration order, which is also the serde serialization order. -/
structure Location where
  zip : String
  name : String
  lat : ℚ
  lon : ℚ
  country : String
deriving DecidableEq

/-- State of `LocationClient` (src/src/location/client.rs).  The embedded
state carries the three query parameters; the reqwest HTTP handle has no
observable state and is omitted. -/
structure LocationClient where
  api_key : String
  zip : String
  country : String
deriving DecidableEq

/-- Constructor `LocationClient::new`. -/
def LocationClient.new (zip country api_key : String) : LocationClient :=
  ⟨api_key, zip, country⟩

/-- Setter `LocationClient::set_zip`: unconditional field update, no
validation. -/
def LocationClient.set_zip (c : LocationClient) (zip : String) : LocationClient :=
  { c with zip := zip }

/-- Getter `LocationClient::get_zip`. -/
def LocationClient.get_zip (c : LocationClient) : String := c.zip

/-- Setter `LocationClient::set_country`: unconditional field update, no
validation. -/
def LocationClient.set_country (c : LocationClient) (country : String) : LocationClient :=
  { c with country := country }

/-- Getter `LocationClient::get_country`. -/
def LocationClient.get_country (c : LocationClient) : String := c.country

/-- Setter `LocationClient::set_api_key`: unconditional field update, no
validation. -/
def LocationClient.set_api_key (c : LocationClient) (api_key : String) : LocationClient :=
  { c with api_key := api_key }

-- endregion

-- region: numeric text rendering helpers

/-- Embedding of Rust one-decimal fixed formatting of an f64, as in the
source's uses of the one-decimal format specifier: the value rounded to one
decimal digit with ties to even.  Written on the numerator and denominator
with integer arithmetic only, so the kernel can evaluate it on concrete
inputs.  (Modelling limitation inherited from dropping the sign bit of the
IEEE zero: a negative value that rounds to zero prints "0.0" rather than
"-0.0"; no claim exercises such a value.) -/
def formatOneDecimal (q : ℚ) : String :=
  let n10 := q.num * 10
  let d := (q.den : ℤ)
  let f := Int.fdiv n10 d
  let r := n10 - f * d
  let n := if 2 * r < d then f
    else if d < 2 * r then f + 1
    else if f % 2 = 0 then f else f + 1
  let a := n.natAbs
  (if n < 0 then "-" else "") ++ toString (a / 10) ++ "." ++ toString (a % 10)

/-- Smallest exponent k (up to the given fuel) such that the denominator
divides 10 ^ k; the length of the finite decimal expansion.  Every f64 value
has such a k (at most 1074), so the fuel never runs out on the model's
domain. -/
def pow10ExpAux (d : Nat) : Nat → Nat → Nat
  | 0, k => k
  | fuel + 1, k => if 10 ^ k % d = 0 then k else pow10ExpAux d fuel (k + 1)

/-- Length of the finite decimal expansion of a rational with a denominator
of the form 2 ^ a * 5 ^ b. -/
def pow10Exp (d : Nat) : Nat := pow10ExpAux d 1100 0

/-- Pads a digit string on the left with zeros to the given length. -/
def padZeros (s : String) (n : Nat) : String :=
  String.mk (List.replicate (n - s.length) '0') ++ s

/-- Exact decimal rendering of q with at least minFrac digits after the
point (and none when minFrac = 0 and q is an integer). -/
def decimalString (q : ℚ) (minFrac : Nat) : String :=
  let k := max minFrac (pow10Exp q.den)
  let a := (Int.fdiv (q.num * ((10 ^ k : ℕ) : ℤ)) (q.den : ℤ)).natAbs
  let sign := if q.num < 0 then "-" else ""
  if k = 0 then sign ++ toString a
  else
    let ds := padZeros (toString a) (k + 1)
    sign ++ ds.take (ds.length - k) ++ "." ++ ds.drop (ds.length - k)

/-- Embedding of the Rust Display of an f64 (as in the coordinate lines of
the detailed display): shortest decimal, no trailing ".0" on integers.  On
the model's domain the ideal decimal value is the shortest representation. -/
def displayF64 (q : ℚ) : String := decimalString q 0

/-- Embedding of serde_json's rendering of an f64 number: like Display but
integers keep one fractional digit ("20.0"). -/
def renderF64 (q : ℚ) : String := decimalString q 1

-- endregion

-- region: human-readable rendering, from src/src/weather/types.rs

/-- Function `get_temperature_display`: one-decimal value with a unit suffix
chosen by the unit selector; the catch-all match arm sends "standard" and
every unrecognized selector to the Kelvin suffix. -/
def get_temperature_display (temp : ℚ) (units : String) : String :=
  if units = "metric" then formatOneDecimal temp ++ "°C"
  else if units = "imperial" then formatOneDecimal temp ++ "°F"
  else formatOneDecimal temp ++ "°K"

/-- Function `get_speed_display`: one-decimal value with a speed unit; only
"imperial" selects mph, everything else (including "standard") selects
m/s. -/
def get_speed_display (speed : ℚ) (units : String) : String :=
  if units = "metric" then formatOneDecimal speed ++ " m/s"
  else if units = "imperial" then formatOneDecimal speed ++ " mph"
  else formatOneDecimal speed ++ " m/s"

/-- Headline fields taken from the condition sequence, as in
`WeatherResponse::detailed_display`: the first element if any, otherwise
empty strings (the if-let on `self.weather.first()`). -/
def headlineFields (weather : List Weather) : String × String × String :=
  match weather with
  | [] => ("", "", "")
  | w :: _ => (w.main, w.description, w.icon)

/-- The part of `WeatherResponse::detailed_display` before the conditions
line: name, coordinates (lat, lon), temperature, wind, clouds. -/
def displayHeader (r : WeatherResponse) (units : String) : String :=
  let temp_display :=
    match r.main.temp with
    | some temp_value => get_temperature_display temp_value units
    | none => ""
  let wind_display := get_speed_display r.wind.speed units
  "🌤️ Weather in " ++ r.name ++
    "\n📍 Coordinates: (" ++ displayF64 r.coord.lat ++ ", " ++ displayF64 r.coord.lon ++
    ")\n🌡️ Temperature: " ++ temp_display ++
    "\n💨 Wind: " ++ wind_display ++ " at " ++ toString r.wind.deg ++
    "°\n☁️ Clouds: " ++ toString r.clouds.all ++ "%"

/-- Method `WeatherResponse::detailed_display`: the full multi-line report.
Total: an empty condition sequence produces empty headline fields rather
than a failure. -/
def WeatherResponse.detailed_display (r : WeatherResponse) (units : String) : String :=
  let h := headlineFields r.weather
  displayHeader r units ++
    "\n🌈 Conditions: " ++ h.1 ++ " (" ++ h.2.1 ++ ")\n   Icon: " ++ h.2.2

-- endregion

-- region: serde_json serialization model

/-- JSON syntax tree: the shape serde_json serializes the library's derived
types into.  Integer-typed and float-typed numbers render differently
(floats always carry a fractional part), so they are separate
constructors. -/
inductive Json where
  | null : Json
  | str : String → Json
  | int : ℤ → Json
  | fnum : ℚ → Json
  | arr : List Json → Json
  | obj : List (String × Json) → Json

/-- Lowercase hex digit for escape sequences. -/
def hexDigitChar (n : Nat) : Char :=
  if n < 10 then Char.ofNat (48 + n) else Char.ofNat (87 + n)

/-- Escape of a single character inside a serde_json string literal. -/
def escapeJsonChar (c : Char) : String :=
  if c.toNat = 34 then "\\\""
  else if c.toNat = 92 then "\\\\"
  else if c.toNat = 8 then "\\b"
  else if c.toNat = 12 then "\\f"
  else if c.toNat = 10 then "\\n"
  else if c.toNat = 13 then "\\r"
  else if c.toNat = 9 then "\\t"
  else if c.toNat < 32 then
    "\\u00" ++ String.singleton (hexDigitChar (c.toNat / 16)) ++
      String.singleton (hexDigitChar (c.toNat % 16))
  else String.singleton c

/-- serde_json escaping of a string body. -/
def escapeJson (s : String) : String := String.join (s.data.map escapeJsonChar)

/-- A rendered JSON string literal. -/
def renderString (s : String) : String := "\"" ++ escapeJson s ++ "\""

mutual

/-- Compact rendering of a JSON tree, as serde_json::to_string produces. -/
def Json.render : Json → String
  | Json.null => "null"
  | Json.str s => renderString s
  | Json.int n => toString n
  | Json.fnum q => renderF64 q
  | Json.arr xs => "[" ++ renderElems xs ++ "]"
  | Json.obj fs => "\x7b" ++ renderMembers fs ++ "\x7d"

/-- Comma-separated rendering of array elements. -/
def renderElems : List Json → String
  | [] => ""
  | [j] => Json.render j
  | j :: js => Json.render j ++ "," ++ renderElems js

/-- Comma-separated rendering of object members. -/
def renderMembers : List (String × Json) → String
  | [] => ""
  | [(k, j)] => renderString k ++ ":" ++ Json.render j
  | (k, j) :: fs => renderString k ++ ":" ++ Json.render j ++ "," ++ renderMembers fs

end

/-- First member of a JSON object with the given key, if the tree is an
object holding one; the accessor a JSON parser gives to a field of the
rendered text. -/
def Json.getField : Json → String → Option Json
  | Json.obj fs, key => fs.lookup key
  | _, _ => none

/-- serde serialization of an optional float field: None becomes null. -/
def optF64Json : Option ℚ → Json
  | some q => Json.fnum q
  | none => Json.null

/-- serde serialization of an optional integer field: None becomes null. -/
def optIntJson : Option ℤ → Json
  | some n => Json.int n
  | none => Json.null

/-- serde serialization of `Coord` (fields in declaration order). -/
def Coord.toJson (c : Coord) : Json :=
  Json.obj [("lon", Json.fnum c.lon), ("lat", Json.fnum c.lat)]

/-- serde serialization of `Weather`. -/
def Weather.toJson (w : Weather) : Json :=
  Json.obj [("id", Json.int w.id), ("main", Json.str w.main),
    ("description", Json.str w.description), ("icon", Json.str w.icon)]

/-- serde serialization of `Main`. -/
def Main.toJson (m : Main) : Json :=
  Json.obj [("temp", optF64Json m.temp), ("feels_like", optF64Json m.feels_like),
    ("temp_min", optF64Json m.temp_min), ("temp_max", optF64Json m.temp_max),
    ("pressure", optIntJson m.pressure), ("humidity", optIntJson m.humidity),
    ("sea_level", optIntJson m.sea_level), ("grnd_level", optIntJson m.grnd_level)]

/-- serde serialization of `Wind`. -/
def Wind.toJson (w : Wind) : Json :=
  Json.obj [("speed", Json.fnum w.speed), ("deg", Json.int w.deg),
    ("gust", optF64Json w.gust)]

/-- serde serialization of `Clouds`. -/
def Clouds.toJson (c : Clouds) : Json := Json.obj [("all", Json.int c.all)]

/-- serde serialization of `Sys`; the `sys_type` field is renamed to "type"
by its serde attribute. -/
def Sys.toJson (s : Sys) : Json :=
  Json.obj [("type", Json.int s.sys_type), ("id", Json.int s.id),
    ("country", Json.str s.country), ("sunrise", Json.int s.sunrise),
    ("sunset", Json.int s.sunset)]

/-- serde serialization of `WeatherResponse` (fields in declaration
order). -/
def WeatherResponse.toJson (r : WeatherResponse) : Json :=
  Json.obj [("coord", r.coord.toJson), ("weather", Json.arr (r.weather.map Weather.toJson)),
    ("base", Json.str r.base), ("main", r.main.toJson),
    ("visibility", Json.int r.visibility), ("wind", r.wind.toJson),
    ("clouds", r.clouds.toJson), ("dt", Json.int r.dt), ("sys", r.sys.toJson),
    ("timezone", Json.int r.timezone), ("id", Json.int r.id),
    ("name", Json.str r.name), ("cod", Json.int r.cod)]

/-- serde serialization of `Location` (fields in declaration order). -/
def Location.toJson (l : Location) : Json :=
  Json.obj [("zip", Json.str l.zip), ("name", Json.str l.name),
    ("lat", Json.fnum l.lat), ("lon", Json.fnum l.lon),
    ("country", Json.str l.country)]

/-- serde_json::to_string of a `WeatherResponse`; total, since these derived
types cannot fail to serialize. -/
def serializeWeatherResponse (r : WeatherResponse) : String := r.toJson.render

-- endregion

-- region: host-bridge adapter, from src/src/weather/types.rs

/-- Inbound request payload of the host-bridge adapter (struct
`WeatherRequestWasm`). -/
structure WeatherRequestWasm where
  zip : String
  country : String
  units : String
  api_key : String
deriving DecidableEq

/-- Outbound response envelope of the host-bridge adapter (struct
`WeatherResponseWasm`): a location, the weather serialized as a JSON string,
and an optional error message. -/
structure WeatherResponseWasm where
  location : Location
  weather : String
  error : Option String
deriving DecidableEq

/-- serde serialization of the response envelope. -/
def WeatherResponseWasm.toJson (r : WeatherResponseWasm) : Json :=
  Json.obj [("location", r.location.toJson), ("weather", Json.str r.weather),
    ("error", match r.error with | some e => Json.str e | none => Json.null)]

/-- serde_json::to_string of the response envelope; total for the same
reason as `serializeWeatherResponse`. -/
def serializeWasmResponse (r : WeatherResponseWasm) : String := r.toJson.render

/-- The all-empty placeholder `Location` the adapter builds on its error
path. -/
def emptyLocation : Location :=
  { zip := "", name := "", lat := 0, lon := 0, country := "" }

/-- Function `fetch_weather_internal`, parameterised by the outcome
functions of the two resolvers: `getLocation zip country api_key` stands for
`LocationClient::new(zip, country, api_key).get_location()`, and
`getCurrentWeather location units api_key` for
`WeatherClient::new(location, units, api_key).get_current_weather()`.
Location failure maps to "Location error: {details}", weather failure to
"Weather error: {details}"; on success the envelope holds the resolved
location, the weather serialized to a JSON string, and no error. -/
def fetch_weather_internal
    (getLocation : String → String → String → Except String Location)
    (getCurrentWeather : Location → String → String → Except String WeatherResponse)
    (request : WeatherRequestWasm) : Except String WeatherResponseWasm :=
  match getLocation request.zip request.country request.api_key with
  | Except.error e => Except.error ("Location error: " ++ e)
  | Except.ok location =>
    match getCurrentWeather location request.units request.api_key with
    | Except.error e => Except.error ("Weather error: " ++ e)
    | Except.ok weather_response =>
      Except.ok ⟨location, serializeWeatherResponse weather_response, none⟩

/-- Function `get_weather_data`, the host-bridge adapter, parameterised by
the outcome of serde_json::from_str on the request text and by the two
resolver outcome functions.  Its `Except.error` result models the Rust
`Err(JsValue)` return, which wasm_bindgen delivers to the host as a rejected
promise (a throw); its `Except.ok` result models the `Ok(String)` return
carrying a serialized envelope.  A parse failure is propagated with the
question-mark operator as `Err("Invalid request: {details}")`; an error from
`fetch_weather_internal` is folded into an envelope with the all-empty
placeholder location, empty weather text, and the error message.  The
serde_json::to_string calls are modelled total (they cannot fail on these
types). -/
def get_weather_data
    (parseRequest : String → Except String WeatherRequestWasm)
    (getLocation : String → String → String → Except String Location)
    (getCurrentWeather : Location → String → String → Except String WeatherResponse)
    (request_json : String) : Except String String :=
  match parseRequest request_json with
  | Except.error e => Except.error ("Invalid request: " ++ e)
  | Except.ok request =>
    match fetch_weather_internal getLocation getCurrentWeather request with
    | Except.ok response => Except.ok (serializeWasmResponse response)
    | Except.error e =>
      Except.ok (serializeWasmResponse ⟨emptyLocation, "", some e⟩)

-- endregion

-- region: concrete scenario stubs used by witnesses and counterexamples

/-- Resolved location of the end-to-end scenario (the data of the
repository's own location-client test): N7L / Chatham / 43.6532 /
-79.3832 / CA. -/
def chathamLoc : Location :=
  ⟨"N7L", "Chatham", mkRat 436532 10000, mkRat (-793832) 10000, "CA"⟩

/-- Well-formed request text of the end-to-end scenario. -/
def goodReqStr : String :=
  "\x7b\"zip\":\"N7L\",\"country\":\"CA\",\"units\":\"metric\",\"api_key\":\"K\"\x7d"

/-- Parsed form of goodReqStr. -/
def goodReq : WeatherRequestWasm := ⟨"N7L", "CA", "metric", "K"⟩

/-- Stub instantiating the serde_json::from_str parameter: accepts exactly
the scenario's request text and rejects everything else.  It agrees with
serde_json on the two concrete inputs the scenarios use (goodReqStr is a
valid request object; "not json" is not valid JSON). -/
def parseStub (s : String) : Except String WeatherRequestWasm :=
  if s = goodReqStr then Except.ok goodReq
  else Except.error "expected ident at line 1 column 2"

/-- Location resolver stub that succeeds with the scenario location. -/
def locResolveOk (_zip _country _key : String) : Except String Location :=
  Except.ok chathamLoc

/-- Location resolver stub that fails with "timeout". -/
def locResolveTimeout (_zip _country _key : String) : Except String Location :=
  Except.error "timeout"

/-- Scenario weather envelope with temperature 20.0. -/
def sampleWeather : WeatherResponse :=
  ⟨⟨mkRat (-793832) 10000, mkRat 436532 10000⟩,
   [⟨801, "Clouds", "few clouds", "02d"⟩], "stations",
   ⟨some (mkRat 20 1), some (mkRat 20 1), none, none, some 1014, some 62, none, none⟩,
   10000, ⟨mkRat 36 10, 220, none⟩, ⟨20⟩, 1752449935,
   ⟨2, 267607, "CA", 1752401008, 1752455116⟩, -14400, 5920450, "Chatham-Kent", 200⟩

/-- Weather resolver stub that succeeds with the scenario envelope. -/
def weatherResolveOk (_loc : Location) (_units _key : String) :
    Except String WeatherResponse := Except.ok sampleWeather

/-- Weather resolver stub that fails with "boom". -/
def weatherResolveBoom (_loc : Location) (_units _key : String) :
    Except String WeatherResponse := Except.error "boom"

-- endregion

-- region: theorems

/-- C5: for every pair (lon, lat) with lon in [-180, 180] and lat in
[-90, 90], `Coord::new` succeeds and returns a record with exactly those lon
and lat values; for every pair outside that domain it fails with a
validation error. -/
theorem coord_new_spec (lon lat : ℚ) :
    ((-180 ≤ lon ∧ lon ≤ 180 ∧ -90 ≤ lat ∧ lat ≤ 90) →
      Coord.new lon lat = Except.ok ⟨lon, lat⟩) ∧
    (¬ (-180 ≤ lon ∧ lon ≤ 180 ∧ -90 ≤ lat ∧ lat ≤ 90) →
      ∃ e, Coord.new lon lat = Except.error e) := by
  unfold Coord.new
  constructor
  · rintro ⟨h1, h2, h3, h4⟩
    have h5 : ¬ (lon < -180 ∨ 180 < lon) := by
      rw [not_or, not_lt, not_lt]; exact ⟨h1, h2⟩
    have h6 : ¬ (lat < -90 ∨ 90 < lat) := by
      rw [not_or, not_lt, not_lt]; exact ⟨h3, h4⟩
    rw [if_neg h5, if_neg h6]
  · intro h
    by_cases h5 : lon < -180 ∨ 180 < lon
    · rw [if_pos h5]; exact ⟨_, rfl⟩
    · by_cases h6 : lat < -90 ∨ 90 < lat
      · rw [if_neg h5, if_pos h6]; exact ⟨_, rfl⟩
      · rw [not_or, not_lt, not_lt] at h5 h6
        exact absurd ⟨h5.1, h5.2, h6.1, h6.2⟩ h
-- witness below applies the theorem at a concrete valid pair and at a
-- concrete invalid pair

theorem coord_new_spec_witness :
    Coord.new 10 20 = Except.ok ⟨10, 20⟩ ∧
    ∃ e, Coord.new 200 0 = Except.error e :=
  ⟨(coord_new_spec 10 20).1 (by norm_num), (coord_new_spec 200 0).2 (by norm_num)⟩

/-- C8: for every speed, degree, and optional gust with deg in [0, 360],
speed nonnegative, and gust nonnegative when present, `Wind::new` succeeds
with exactly those values; any negative speed, out-of-range degree, or
negative gust fails with a validation error. -/
theorem wind_new_spec (speed : ℚ) (deg : ℤ) (gust : Option ℚ) :
    ((0 ≤ speed ∧ 0 ≤ deg ∧ deg ≤ 360 ∧ ∀ g, gust = some g → 0 ≤ g) →
      Wind.new speed deg gust = Except.ok ⟨speed, deg, gust⟩) ∧
    ((speed < 0 ∨ deg < 0 ∨ 360 < deg ∨ ∃ g, gust = some g ∧ g < 0) →
      ∃ e, Wind.new speed deg gust = Except.error e) := by
  unfold Wind.new
  constructor
  · rintro ⟨h1, h2, h3, h4⟩
    have h5 : ¬ speed < 0 := not_lt.mpr h1
    have h6 : ¬ (deg < 0 ∨ 360 < deg) := by
      rw [not_or, not_lt, not_lt]; exact ⟨h2, h3⟩
    rw [if_neg h5, if_neg h6]
    cases gust with
    | none => rfl
    | some g =>
      dsimp only
      rw [if_neg (not_lt.mpr (h4 g rfl))]
  · intro h
    by_cases h5 : speed < 0
    · rw [if_pos h5]; exact ⟨_, rfl⟩
    · by_cases h6 : deg < 0 ∨ 360 < deg
      · rw [if_neg h5, if_pos h6]; exact ⟨_, rfl⟩
      · rcases h with h | h | h | ⟨g, hg, hgneg⟩
        · exact absurd h h5
        · exact absurd (Or.inl h) h6
        · exact absurd (Or.inr h) h6
        · subst hg
          rw [if_neg h5, if_neg h6]
          dsimp only
          rw [if_pos hgneg]
          exact ⟨_, rfl⟩

theorem wind_new_spec_witness :
    Wind.new 5 220 (some 1) = Except.ok ⟨5, 220, some 1⟩ ∧
    ∃ e, Wind.new (-1) 220 none = Except.error e :=
  ⟨(wind_new_spec 5 220 (some 1)).1
      ⟨by norm_num, by norm_num, by norm_num, fun g hg => by cases hg; norm_num⟩,
   (wind_new_spec (-1) 220 none).2 (Or.inl (by norm_num))⟩

/-- C6: for every temperature value and unit selector,
`get_temperature_display` renders the value to one decimal place and appends
the Celsius suffix for "metric", the Fahrenheit suffix for "imperial", and
the Kelvin suffix for any other selector, "standard" included. -/
theorem get_temperature_display_spec (t : ℚ) (u : String) :
    get_temperature_display t u =
      formatOneDecimal t ++
        (if u = "metric" then "°C" else if u = "imperial" then "°F" else "°K") ∧
    get_temperature_display t "standard" = formatOneDecimal t ++ "°K" := by
  constructor
  · unfold get_temperature_display
    by_cases h1 : u = "metric" <;> by_cases h2 : u = "imperial" <;> simp [h1, h2]
  · rfl

/-- C7 counterexample: the claim asserts that rendering the input
temperature 27.77 with the "imperial" selector yields "82.0°F";
`get_temperature_display` performs no unit conversion, so it actually yields
"27.8°F". -/
theorem temp_display_imperial_counterexample :
    get_temperature_display (27.77 : ℚ) "imperial" = "27.8°F" ∧
    get_temperature_display (27.77 : ℚ) "imperial" ≠ "82.0°F" := by
  have h : (27.77 : ℚ) = mkRat 2777 100 := by norm_num [Rat.mkRat_eq_div]
  rw [h]
  exact ⟨by decide, by decide⟩

/-- C7 (amended): rendering is deterministic with these exact outputs: input
27.77 renders "27.8°C" under "metric", "27.8°F" under "imperial" (the
function converts nothing), and "27.8°K" under "standard" or any
unrecognized selector; input 82.0 under "imperial" renders "82.0°F". -/
theorem temp_display_concrete_outputs :
    get_temperature_display (27.77 : ℚ) "metric" = "27.8°C" ∧
    get_temperature_display (27.77 : ℚ) "imperial" = "27.8°F" ∧
    get_temperature_display (27.77 : ℚ) "standard" = "27.8°K" ∧
    get_temperature_display (27.77 : ℚ) "unrecognized" = "27.8°K" ∧
    get_temperature_display (82.0 : ℚ) "imperial" = "82.0°F" := by
  have h : (27.77 : ℚ) = mkRat 2777 100 := by norm_num [Rat.mkRat_eq_div]
  have h2 : (82.0 : ℚ) = mkRat 82 1 := by norm_num [Rat.mkRat_eq_div]
  simp only [h, h2]
  exact ⟨by decide, by decide, by decide, by decide, by decide⟩

/-- C10: every setter of `LocationClient` updates exactly its own field —
`set_zip` leaves country and api_key unchanged and makes `get_zip` return
the new value, and symmetrically for `set_country` and `set_api_key` — and
no setter validates its argument (each theorem part holds for every string
v with no precondition). -/
theorem location_client_setters (c : LocationClient) (v : String) :
    ((c.set_zip v).country = c.country ∧ (c.set_zip v).api_key = c.api_key ∧
      (c.set_zip v).get_zip = v) ∧
    ((c.set_country v).zip = c.zip ∧ (c.set_country v).api_key = c.api_key ∧
      (c.set_country v).get_country = v) ∧
    ((c.set_api_key v).zip = c.zip ∧ (c.set_api_key v).country = c.country ∧
      (c.set_api_key v).api_key = v) :=
  ⟨⟨rfl, rfl, rfl⟩, ⟨rfl, rfl, rfl⟩, ⟨rfl, rfl, rfl⟩⟩

/-- C1 counterexample: on the request text "not json" — not valid JSON —
the adapter does not return a serialized error envelope: it returns the
host-level error result "Invalid request: {details}" (the Rust
`Err(JsValue)`, which wasm_bindgen delivers to the host as a rejected
promise, i.e. a throw across the boundary), so no success value carrying a
serialized envelope exists. -/
theorem get_weather_data_parse_failure_counterexample :
    get_weather_data parseStub locResolveOk weatherResolveOk "not json" =
      Except.error "Invalid request: expected ident at line 1 column 2" ∧
    ¬ ∃ out, get_weather_data parseStub locResolveOk weatherResolveOk "not json" =
      Except.ok out := by
  have e : get_weather_data parseStub locResolveOk weatherResolveOk "not json" =
      Except.error "Invalid request: expected ident at line 1 column 2" := rfl
  refine ⟨e, ?_⟩
  rintro ⟨out, h⟩
  rw [e] at h
  exact Except.noConfusion h

/-- C1 (amended): the host-bridge adapter returns a serialized envelope for
every successfully parsed request — both resolver failure paths are folded
into an error envelope — but when the request text does not parse it
returns the host-level error value "Invalid request: {details}" (a throw /
rejected promise across the host boundary, not a serialized error envelope)
without invoking either resolver: on the parse-failure path the result is
the same for every pair of resolver functions. -/
theorem get_weather_data_boundary
    (parseRequest : String → Except String WeatherRequestWasm)
    (getLocation getLocation2 : String → String → String → Except String Location)
    (getCurrentWeather getCurrentWeather2 :
      Location → String → String → Except String WeatherResponse)
    (s e : String) (req : WeatherRequestWasm) :
    (parseRequest s = Except.error e →
      get_weather_data parseRequest getLocation getCurrentWeather s =
        Except.error ("Invalid request: " ++ e) ∧
      get_weather_data parseRequest getLocation getCurrentWeather s =
        get_weather_data parseRequest getLocation2 getCurrentWeather2 s) ∧
    (parseRequest s = Except.ok req →
      ∃ out, get_weather_data parseRequest getLocation getCurrentWeather s =
        Except.ok out) := by
  constructor
  · intro h
    unfold get_weather_data
    rw [h]
    exact ⟨rfl, rfl⟩
  · intro h
    unfold get_weather_data
    rw [h]
    dsimp only
    cases hfw : fetch_weather_internal getLocation getCurrentWeather req with
    | ok response => exact ⟨_, rfl⟩
    | error e2 => exact ⟨_, rfl⟩

theorem get_weather_data_boundary_witness :
    (get_weather_data parseStub locResolveOk weatherResolveOk "not json" =
        Except.error ("Invalid request: " ++ "expected ident at line 1 column 2") ∧
      get_weather_data parseStub locResolveOk weatherResolveOk "not json" =
        get_weather_data parseStub locResolveTimeout weatherResolveBoom "not json") ∧
    ∃ out, get_weather_data parseStub locResolveOk weatherResolveOk goodReqStr =
      Except.ok out :=
  ⟨(get_weather_data_boundary parseStub locResolveOk locResolveTimeout weatherResolveOk
      weatherResolveBoom "not json" "expected ident at line 1 column 2" goodReq).1 rfl,
   (get_weather_data_boundary parseStub locResolveOk locResolveTimeout weatherResolveOk
      weatherResolveBoom goodReqStr "" goodReq).2 rfl⟩

/-- C4: whenever the request parses and the location resolver fails, the
adapter returns a serialized error envelope whose location field is the
all-empty/zero placeholder record (empty strings, lat 0, lon 0), whose
weather field is the empty string, and whose error field is
"Location error: {details}". -/
theorem get_weather_data_location_failure
    (parseRequest : String → Except String WeatherRequestWasm)
    (getLocation : String → String → String → Except String Location)
    (getCurrentWeather : Location → String → String → Except String WeatherResponse)
    (s d : String) (req : WeatherRequestWasm)
    (hp : parseRequest s = Except.ok req)
    (hl : getLocation req.zip req.country req.api_key = Except.error d) :
    get_weather_data parseRequest getLocation getCurrentWeather s =
      Except.ok (serializeWasmResponse
        ⟨emptyLocation, "", some ("Location error: " ++ d)⟩) := by
  unfold get_weather_data fetch_weather_internal
  rw [hp]
  dsimp only
  rw [hl]

theorem get_weather_data_location_failure_witness :
    get_weather_data parseStub locResolveTimeout weatherResolveOk goodReqStr =
      Except.ok (serializeWasmResponse
        ⟨emptyLocation, "", some ("Location error: " ++ "timeout")⟩) :=
  get_weather_data_location_failure parseStub locResolveTimeout weatherResolveOk
    goodReqStr "timeout" goodReq rfl rfl

/-- C2 (amended): whenever the request parses, the location resolver
succeeds, and the weather resolver then fails, the adapter returns a
serialized error envelope whose error field is "Weather error: {details}"
but whose location field is the all-empty placeholder record: the resolved
location is discarded by the adapter's single catch-all error branch. -/
theorem get_weather_data_weather_failure
    (parseRequest : String → Except String WeatherRequestWasm)
    (getLocation : String → String → String → Except String Location)
    (getCurrentWeather : Location → String → String → Except String WeatherResponse)
    (s d : String) (req : WeatherRequestWasm) (loc : Location)
    (hp : parseRequest s = Except.ok req)
    (hl : getLocation req.zip req.country req.api_key = Except.ok loc)
    (hw : getCurrentWeather loc req.units req.api_key = Except.error d) :
    get_weather_data parseRequest getLocation getCurrentWeather s =
      Except.ok (serializeWasmResponse
        ⟨emptyLocation, "", some ("Weather error: " ++ d)⟩) := by
  unfold get_weather_data fetch_weather_internal
  rw [hp]
  dsimp only
  rw [hl]
  dsimp only
  rw [hw]

theorem get_weather_data_weather_failure_witness :
    get_weather_data parseStub locResolveOk weatherResolveBoom goodReqStr =
      Except.ok (serializeWasmResponse
        ⟨emptyLocation, "", some ("Weather error: " ++ "boom")⟩) :=
  get_weather_data_weather_failure parseStub locResolveOk weatherResolveBoom
    goodReqStr "boom" goodReq chathamLoc rfl rfl rfl

/-- C2 counterexample: in the concrete scenario where the location resolver
succeeds with the Chatham record and the weather resolver then fails with
"boom", the adapter's output is not the serialized error envelope carrying
the resolved record (the error-envelope shape: that location, empty weather
text, error "Weather error: boom"); the envelope it serializes carries the
all-empty placeholder, which differs from the resolved record. -/
theorem get_weather_data_weather_failure_counterexample :
    get_weather_data parseStub locResolveOk weatherResolveBoom goodReqStr ≠
      Except.ok (serializeWasmResponse ⟨chathamLoc, "", some "Weather error: boom"⟩) ∧
    locResolveOk goodReq.zip goodReq.country goodReq.api_key = Except.ok chathamLoc ∧
    chathamLoc ≠ emptyLocation := by
  refine ⟨?_, rfl, by decide⟩
  intro h
  have e : get_weather_data parseStub locResolveOk weatherResolveBoom goodReqStr =
      Except.ok (serializeWasmResponse
        ⟨emptyLocation, "", some "Weather error: boom"⟩) := rfl
  rw [e] at h
  exact absurd (Except.ok.inj h) (by decide)

/-- C3: whenever the request parses and both resolvers succeed, the adapter
returns a success envelope containing the resolved location record
unchanged, a weather field holding the weather result serialized as a JSON
string (a string field, not a nested object), and a None error field; and
the serialized JSON tree of the weather result yields back the resolver's
main record and its temperature field under the "main"/"temp" keys, so
parsing the weather string recovers the resolver's temperature. -/
theorem get_weather_data_success
    (parseRequest : String → Except String WeatherRequestWasm)
    (getLocation : String → String → String → Except String Location)
    (getCurrentWeather : Location → String → String → Except String WeatherResponse)
    (s : String) (req : WeatherRequestWasm) (loc : Location) (w : WeatherResponse)
    (hp : parseRequest s = Except.ok req)
    (hl : getLocation req.zip req.country req.api_key = Except.ok loc)
    (hw : getCurrentWeather loc req.units req.api_key = Except.ok w) :
    get_weather_data parseRequest getLocation getCurrentWeather s =
      Except.ok (serializeWasmResponse
        ⟨loc, serializeWeatherResponse w, none⟩) ∧
    Json.getField (WeatherResponse.toJson w) "main" = some (Main.toJson w.main) ∧
    Json.getField (Main.toJson w.main) "temp" = some (optF64Json w.main.temp) := by
  refine ⟨?_, rfl, rfl⟩
  unfold get_weather_data fetch_weather_internal
  rw [hp]
  dsimp only
  rw [hl]
  dsimp only
  rw [hw]

theorem get_weather_data_success_witness :
    get_weather_data parseStub locResolveOk weatherResolveOk goodReqStr =
      Except.ok (serializeWasmResponse
        ⟨chathamLoc, serializeWeatherResponse sampleWeather, none⟩) ∧
    Json.getField (WeatherResponse.toJson sampleWeather) "main" =
      some (Main.toJson sampleWeather.main) ∧
    Json.getField (Main.toJson sampleWeather.main) "temp" =
      some (optF64Json (some (mkRat 20 1))) :=
  get_weather_data_success parseStub locResolveOk weatherResolveOk goodReqStr
    goodReq chathamLoc sampleWeather rfl rfl rfl

/-- C9: `detailed_display` is total, and the headline fields come from the
first element of the condition sequence: with an empty sequence the main,
description, and icon slots render as empty text (no failure — note the two
spaces and empty parentheses), and with a non-empty sequence the first
element supplies them. -/
theorem detailed_display_headline (r : WeatherResponse) (units : String) :
    (r.weather = [] →
      r.detailed_display units =
        displayHeader r units ++ "\n🌈 Conditions:  ()\n   Icon: ") ∧
    (∀ w ws, r.weather = w :: ws →
      r.detailed_display units =
        displayHeader r units ++
          ("\n🌈 Conditions: " ++ w.main ++ " (" ++ w.description ++
            ")\n   Icon: " ++ w.icon)) := by
  constructor
  · intro h
    unfold WeatherResponse.detailed_display
    rw [h]
    dsimp only [headlineFields]
    simp only [String.append_assoc]
    congr 1
  · intro w ws h
    unfold WeatherResponse.detailed_display
    rw [h]
    dsimp only [headlineFields]
    simp only [String.append_assoc]

theorem detailed_display_headline_witness :
    WeatherResponse.detailed_display { sampleWeather with weather := [] } "metric" =
        displayHeader { sampleWeather with weather := [] } "metric" ++
          "\n🌈 Conditions:  ()\n   Icon: " ∧
    WeatherResponse.detailed_display sampleWeather "metric" =
        displayHeader sampleWeather "metric" ++
          ("\n🌈 Conditions: " ++ "Clouds" ++ " (" ++ "few clouds" ++
            ")\n   Icon: " ++ "02d") :=
  ⟨(detailed_display_headline { sampleWeather with weather := [] } "metric").1 rfl,
   (detailed_display_headline sampleWeather "metric").2
     ⟨801, "Clouds", "few clouds", "02d"⟩ [] rfl⟩

-- endregion

end Owm
